import Mathlib

/-!
Verification of the Reshape inference rule
(`model-optimizer/mo/front/tf/extractors/reshape.py`).

The file embeds the data model (graph nodes carrying optional tensor
values and shapes), the two collaborator utilities the rule delegates to
(`single_output_infer` and `tf_reshape_shape_infer`, which live outside
the provided source and are therefore modelled from the specification),
the external array reinterpretation primitive (`np.reshape`, also
modelled from its stated contract), and the extractor `tf_reshape_ext`
itself, translated directly from the source.  Theorems about the claims
follow the definitions.
-/

/-- A concrete multi-dimensional numeric array: a shape (ordered sequence
of non-negative integers) together with the flattened element sequence. -/
structure NDArray where
  shape : List Nat
  data : List Int
deriving Repr, DecidableEq

/-- One operation instance in the computation graph, restricted to the
state the reshape rule touches: the single input tensor descriptor
(shape and optional concrete value), the reshape target-shape argument
carried by the operation, and the single output tensor slot. -/
structure Node where
  in_shape : List Nat
  in_value : Option NDArray
  dim : List Int
  out_shape : Option (List Nat)
  out_value : Option NDArray
deriving Repr

/-- Modelled from the spec: the external array reinterpretation primitive
(`np.reshape`): given a concrete array and a target shape, returns a new
concrete array with that shape and the same flattened element sequence,
failing if element counts mismatch. -/
def np_reshape (a : NDArray) (s : List Nat) : Except String NDArray :=
  if a.data.length = s.prod then
    Except.ok ⟨s, a.data⟩
  else
    Except.error "cannot reshape array: element count mismatch"

/-- Modelled from the spec: positional resolution of the `0` convention in
a reshape target-shape argument.  A `0` entry copies the corresponding
input dimension; entries below `-1` are invalid; `-1` and positive entries
pass through unchanged.  Entries are aligned positionally with the input
shape. -/
def resolveDims : List Nat → List Int → Except String (List Int)
  | _, [] => Except.ok []
  | ins, d :: ds =>
    if d < -1 then
      Except.error "invalid negative dimension in reshape target shape"
    else if d = 0 then
      match ins with
      | [] => Except.error "zero dimension has no corresponding input dimension"
      | i :: is =>
        match resolveDims is ds with
        | Except.ok rest => Except.ok ((i : Int) :: rest)
        | Except.error e => Except.error e
    else
      match resolveDims ins.tail ds with
      | Except.ok rest => Except.ok (d :: rest)
      | Except.error e => Except.error e

/-- Modelled from the spec: the reshape shape-inference helper
`tf_reshape_shape_infer` (imported by the source from
`mo.front.common.partial_infer.reshape`, not part of the provided
fragment).  It resolves the operation's target-shape argument against the
input shape: `0` copies the corresponding input dimension, at most one
`-1` is permitted and is inferred so the total element count matches the
input; with exactly one `-1` the input element count must be evenly
divisible by the product of the other (known) dimensions. -/
def tf_reshape_shape_infer (node : Node) : Except String (List Nat) :=
  let count := node.in_shape.prod
  match resolveDims node.in_shape node.dim with
  | Except.error e => Except.error e
  | Except.ok resolved =>
    if resolved.count (-1) > 1 then
      Except.error "ambiguous reshape target shape: more than one -1"
    else if resolved.count (-1) = 1 then
      let p := ((resolved.filter (fun d => d != -1)).map Int.toNat).prod
      if p ≠ 0 ∧ p ∣ count then
        Except.ok (resolved.map (fun d => if d = -1 then count / p else d.toNat))
      else
        Except.error "cannot infer -1 dimension: element count not evenly divisible"
    else
      Except.ok (resolved.map Int.toNat)

/-- Modelled from the spec: the single-output inference helper
`single_output_infer` (imported by the source from
`mo.front.common.partial_infer.elemental`, not part of the provided
fragment).  It invokes the shape-inference function to obtain the output
shape, writes it onto the node's single output slot, then invokes the
value-inference function (which may read the freshly written output
shape) to obtain the concrete value or the unknown marker, and writes
that onto the output slot as well. -/
def single_output_infer (node : Node)
    (shape_fn : Node → Except String (List Nat))
    (value_fn : Node → Except String (Option NDArray)) :
    Except String Node :=
  match shape_fn node with
  | Except.error e => Except.error e
  | Except.ok s =>
    let node' := { node with out_shape := some s }
    match value_fn node' with
    | Except.error e => Except.error e
    | Except.ok v => Except.ok { node' with out_value := v }

/-- The value-inference function the extractor passes to
`single_output_infer`, translated from the source lambda:
`np.reshape(node.in_node().value, node.out_node().shape)
 if node.in_node().value is not None else None`.
When the input value is unknown it yields the unknown marker; when known
it reinterprets the value as the node's output shape (erring, like
`np.reshape`, when that shape is not available or the counts mismatch). -/
def reshape_value_infer (node : Node) : Except String (Option NDArray) :=
  match node.in_value with
  | none => Except.ok none
  | some a =>
    match node.out_shape with
    | none => Except.error "output shape is not set"
    | some s =>
      match np_reshape a s with
      | Except.ok r => Except.ok (some r)
      | Except.error e => Except.error e

/-- The `infer` callable attached by the extractor, translated from the
source: `single_output_infer(node, tf_reshape_shape_infer, <lambda>)`. -/
def reshape_infer (node : Node) : Except String Node :=
  single_output_infer node tf_reshape_shape_infer reshape_value_infer

/-- A value stored in the attribute mapping returned by an extractor:
either a string tag or an inference callable taking a node. -/
inductive AttrValue where
  | str : String → AttrValue
  | inferFn : (Node → Except String Node) → AttrValue

/-- The extractor `tf_reshape_ext`, translated from the source.  The raw
operation descriptor `pb` is accepted (at any type) and not inspected;
the result is the two-entry attribute mapping. -/
def tf_reshape_ext {α : Type} (pb : α) : List (String × AttrValue) :=
  [("type", AttrValue.str "Reshape"), ("infer", AttrValue.inferFn reshape_infer)]

/-- `resolveDims` preserves the multiplicity of `-1` entries: a `0` entry
is replaced by a non-negative input dimension and every other entry is
kept verbatim. -/
theorem resolveDims_count_neg_one (ins : List Nat) (ds : List Int)
    (res : List Int) (h : resolveDims ins ds = Except.ok res) :
    res.count (-1) = ds.count (-1) := by
  induction ds generalizing ins res with
  | nil =>
    unfold resolveDims at h
    cases h
    rfl
  | cons d ds ih =>
    unfold resolveDims at h
    by_cases hlt : d < -1
    · simp [hlt] at h
    · by_cases hz : d = 0
      · simp [hlt, hz] at h
        cases ins with
        | nil => simp at h
        | cons i is =>
          simp at h
          cases hrec : resolveDims is ds with
          | error e => rw [hrec] at h; cases h
          | ok rest =>
            rw [hrec] at h
            cases h
            have hi : ((i : Int) == (-1 : Int)) = false := by
              simp
            simp [List.count_cons, hi, hz, ih is rest hrec]
      · simp [hlt, hz] at h
        cases hrec : resolveDims ins.tail ds with
        | error e => rw [hrec] at h; cases h
        | ok rest =>
          rw [hrec] at h
          cases h
          simp [List.count_cons, ih ins.tail rest hrec]

/-- Helper: when the input value is known and shape inference resolves `s`
with a matching element count, the whole `infer` call succeeds and writes
shape `s` and the reinterpreted value onto the output slot. -/
theorem reshape_infer_known (node : Node) (a : NDArray) (s : List Nat)
    (hv : node.in_value = some a)
    (hs : tf_reshape_shape_infer node = Except.ok s)
    (hc : a.data.length = s.prod) :
    reshape_infer node =
      Except.ok { node with out_shape := some s, out_value := some ⟨s, a.data⟩ } := by
  unfold reshape_infer single_output_infer
  rw [hs]
  simp [reshape_value_infer, hv, np_reshape, hc]

/-- C1: for every raw operation descriptor `pb`, `tf_reshape_ext pb`
returns a mapping with exactly two entries: the key `type` mapped to the
literal string `"Reshape"`, and the key `infer` mapped to a callable
taking a node. -/
theorem C1_two_entry_mapping {α : Type} (pb : α) :
    (tf_reshape_ext pb).length = 2 ∧
    (tf_reshape_ext pb).lookup "type" = some (AttrValue.str "Reshape") ∧
    (tf_reshape_ext pb).lookup "infer" = some (AttrValue.inferFn reshape_infer) :=
  ⟨rfl, rfl, rfl⟩

/-- C2: for every node whose single input has a known concrete value and
whose resolved output shape has the same total element count, the
attached value inference produces an array with the resolved shape whose
flattened element sequence is identical to the input value's. -/
theorem C2_flatten_preserved (node : Node) (a : NDArray) (s : List Nat)
    (hv : node.in_value = some a)
    (hs : tf_reshape_shape_infer node = Except.ok s)
    (hc : a.data.length = s.prod) :
    reshape_infer node =
      Except.ok { node with out_shape := some s, out_value := some ⟨s, a.data⟩ } :=
  reshape_infer_known node a s hv hs hc

/-- C2 witness: reshaping a known 24-element input to target shape
`[6,4]` yields shape `[6,4]` with the identical flattened data. -/
theorem C2_flatten_preserved_witness :
    reshape_infer ⟨[24], some ⟨[24], (List.range 24).map Int.ofNat⟩, [6, 4], none, none⟩ =
      Except.ok ⟨[24], some ⟨[24], (List.range 24).map Int.ofNat⟩, [6, 4],
                 some [6, 4], some ⟨[6, 4], (List.range 24).map Int.ofNat⟩⟩ :=
  C2_flatten_preserved ⟨[24], some ⟨[24], (List.range 24).map Int.ofNat⟩, [6, 4], none, none⟩
    ⟨[24], (List.range 24).map Int.ofNat⟩ [6, 4] rfl rfl (by decide)

/-- C3: for every node whose input value is unknown, `infer` still
populates the output shape but records no output value (the unknown
marker, never a fabricated value). -/
theorem C3_unknown_value_propagates (node : Node) (s : List Nat)
    (hv : node.in_value = none)
    (hs : tf_reshape_shape_infer node = Except.ok s) :
    reshape_infer node =
      Except.ok { node with out_shape := some s, out_value := none } := by
  unfold reshape_infer single_output_infer
  rw [hs]
  simp [reshape_value_infer, hv]

/-- C3 witness: input value unknown, target shape argument `[6,4]` gives
output shape `[6,4]` and an unknown output value. -/
theorem C3_unknown_value_propagates_witness :
    reshape_infer ⟨[24], none, [6, 4], none, none⟩ =
      Except.ok ⟨[24], none, [6, 4], some [6, 4], none⟩ :=
  C3_unknown_value_propagates _ [6, 4] rfl rfl

/-- C4: `tf_reshape_ext` performs no validation or inspection of the raw
operation descriptor: its result is the same total value for every
descriptor of every type, so calling it raises no error and has no
effect depending on the descriptor. -/
theorem C4_descriptor_not_inspected {α β : Type} (pb : α) (pb' : β) :
    tf_reshape_ext pb = tf_reshape_ext pb' :=
  rfl

/-- C5: shape resolution fails for every target shape argument containing
more than one `-1` (ambiguous), and for every target shape resolving to
exactly one `-1` when the input's total element count is not evenly
divisible by the product of the other known dimensions. -/
theorem C5_shape_resolution_failures (node : Node) :
    (2 ≤ node.dim.count (-1) →
      ∃ e, tf_reshape_shape_infer node = Except.error e) ∧
    (∀ resolved, resolveDims node.in_shape node.dim = Except.ok resolved →
      resolved.count (-1) = 1 →
      ¬ ((resolved.filter (fun d => d != -1)).map Int.toNat).prod ∣ node.in_shape.prod →
      ∃ e, tf_reshape_shape_infer node = Except.error e) := by
  constructor
  · intro h2
    unfold tf_reshape_shape_infer
    cases hres : resolveDims node.in_shape node.dim with
    | error e => exact ⟨e, rfl⟩
    | ok resolved =>
      have hcnt := resolveDims_count_neg_one _ _ _ hres
      have hgt : resolved.count (-1) > 1 := by omega
      simp [hgt]
  · intro resolved hres h1 hdvd
    unfold tf_reshape_shape_infer
    rw [hres]
    have hgt : ¬ resolved.count (-1) > 1 := by omega
    simp [hgt, h1, hdvd]

/-- C5 witness: target shape `[-1,-1]` fails (ambiguous), and target
shape `[5,-1]` with a 24-element input fails (24 is not divisible by 5). -/
theorem C5_shape_resolution_failures_witness :
    (∃ e, tf_reshape_shape_infer ⟨[2, 3, 4], none, [-1, -1], none, none⟩ = Except.error e) ∧
    (∃ e, tf_reshape_shape_infer ⟨[2, 3, 4], none, [5, -1], none, none⟩ = Except.error e) :=
  ⟨(C5_shape_resolution_failures ⟨[2, 3, 4], none, [-1, -1], none, none⟩).1 (by decide),
   (C5_shape_resolution_failures ⟨[2, 3, 4], none, [5, -1], none, none⟩).2
     [5, -1] rfl (by decide) (by decide)⟩

/-- C6: for every node with a known input value, if the resolved output
shape's total element count differs from the input value's element
count, the value reinterpretation fails and the failure propagates out
of the `infer` invocation. -/
theorem C6_count_mismatch_fails (node : Node) (a : NDArray) (s : List Nat)
    (hv : node.in_value = some a)
    (hs : tf_reshape_shape_infer node = Except.ok s)
    (hc : a.data.length ≠ s.prod) :
    ∃ e, reshape_infer node = Except.error e := by
  unfold reshape_infer single_output_infer
  rw [hs]
  refine ⟨"cannot reshape array: element count mismatch", ?_⟩
  simp [reshape_value_infer, hv, np_reshape, hc]

/-- C6 witness: a 24-element known input with fully specified target
shape `[5,5]` (25 elements) makes `infer` fail. -/
theorem C6_count_mismatch_fails_witness :
    ∃ e, reshape_infer ⟨[24], some ⟨[24], (List.range 24).map Int.ofNat⟩,
                        [5, 5], none, none⟩ = Except.error e :=
  C6_count_mismatch_fails ⟨[24], some ⟨[24], (List.range 24).map Int.ofNat⟩, [5, 5], none, none⟩
    ⟨[24], (List.range 24).map Int.ofNat⟩ [5, 5] rfl rfl (by decide)

/-- C7: for every node with input shape `[2,3,4]` and target shape
argument `[0,-1]`, the output shape resolves to `[2,12]`; and for every
known 24-element input value the output value has shape `[2,12]` with
identical flattened data. -/
theorem C7_concrete_scenario (node : Node)
    (hshape : node.in_shape = [2, 3, 4]) (hdim : node.dim = [0, -1]) :
    tf_reshape_shape_infer node = Except.ok [2, 12] ∧
    ∀ a, node.in_value = some a → a.data.length = 24 →
      reshape_infer node =
        Except.ok { node with out_shape := some [2, 12],
                              out_value := some ⟨[2, 12], a.data⟩ } := by
  obtain ⟨ins, iv, d, os, ov⟩ := node
  simp only at hshape hdim
  subst hshape hdim
  have hs : tf_reshape_shape_infer ⟨[2, 3, 4], iv, [0, -1], os, ov⟩ = Except.ok [2, 12] := by
    simp [tf_reshape_shape_infer, resolveDims]
  refine ⟨hs, ?_⟩
  intro a hv hlen
  exact reshape_infer_known _ a [2, 12] hv hs hlen

/-- C7 witness: the scenario instantiated with the known input value
`0,...,23` of shape `[2,3,4]`. -/
theorem C7_concrete_scenario_witness :
    tf_reshape_shape_infer ⟨[2, 3, 4], some ⟨[2, 3, 4], (List.range 24).map Int.ofNat⟩,
                            [0, -1], none, none⟩ = Except.ok [2, 12] ∧
    reshape_infer ⟨[2, 3, 4], some ⟨[2, 3, 4], (List.range 24).map Int.ofNat⟩,
                   [0, -1], none, none⟩ =
      Except.ok ⟨[2, 3, 4], some ⟨[2, 3, 4], (List.range 24).map Int.ofNat⟩, [0, -1],
                 some [2, 12], some ⟨[2, 12], (List.range 24).map Int.ofNat⟩⟩ :=
  ⟨(C7_concrete_scenario ⟨[2, 3, 4], some ⟨[2, 3, 4], (List.range 24).map Int.ofNat⟩,
      [0, -1], none, none⟩ rfl rfl).1,
   (C7_concrete_scenario ⟨[2, 3, 4], some ⟨[2, 3, 4], (List.range 24).map Int.ofNat⟩,
      [0, -1], none, none⟩ rfl rfl).2 ⟨[2, 3, 4], (List.range 24).map Int.ofNat⟩
      rfl (by decide)⟩

/-- C8: idempotence: for every well-formed concrete array, reshaping it
to its own current shape via the value-inference function yields a value
equal to the original (same shape, same elements). -/
theorem C8_reshape_idempotent (a : NDArray) (node : Node)
    (hwf : a.data.length = a.shape.prod)
    (hv : node.in_value = some a)
    (hs : node.out_shape = some a.shape) :
    reshape_value_infer node = Except.ok (some a) := by
  obtain ⟨sh, da⟩ := a
  simp only at hwf hs
  simp [reshape_value_infer, hv, hs, np_reshape, hwf]

/-- C8 witness: reshaping the `[2,3]`-shaped array `1..6` to `[2,3]`
returns it unchanged. -/
theorem C8_reshape_idempotent_witness :
    reshape_value_infer ⟨[6], some ⟨[2, 3], [1, 2, 3, 4, 5, 6]⟩, [2, 3],
                         some [2, 3], none⟩ =
      Except.ok (some ⟨[2, 3], [1, 2, 3, 4, 5, 6]⟩) :=
  C8_reshape_idempotent ⟨[2, 3], [1, 2, 3, 4, 5, 6]⟩
    ⟨[6], some ⟨[2, 3], [1, 2, 3, 4, 5, 6]⟩, [2, 3], some [2, 3], none⟩
    (by decide) rfl rfl

/-- C9: the value-inference function reads the target shape from the
node's output slot, so with a known input value it errs whenever the
output shape has not been written yet; the helper therefore writes the
resolved shape onto the output before invoking the value function, which
is exactly how `reshape_infer` decomposes. -/
theorem C9_shape_written_before_value (node : Node) :
    (∀ a, node.in_value = some a → node.out_shape = none →
      ∃ e, reshape_value_infer node = Except.error e) ∧
    (∀ s, tf_reshape_shape_infer node = Except.ok s →
      reshape_infer node =
        (reshape_value_infer { node with out_shape := some s }).map
          (fun v => { node with out_shape := some s, out_value := v })) := by
  constructor
  · intro a hv ho
    refine ⟨"output shape is not set", ?_⟩
    simp [reshape_value_infer, hv, ho]
  · intro s hs
    unfold reshape_infer single_output_infer
    rw [hs]
    cases h : reshape_value_infer { node with out_shape := some s } with
    | ok v => simp [h, Except.map]
    | error e => simp [h, Except.map]

/-- C9 witness: on a node with a known value and no output shape yet the
value function errs, while the full `infer` call decomposes into shape
writing followed by value inference on the updated node. -/
theorem C9_shape_written_before_value_witness :
    (∃ e, reshape_value_infer ⟨[6], some ⟨[6], [1, 2, 3, 4, 5, 6]⟩, [2, 3], none, none⟩ =
      Except.error e) ∧
    reshape_infer ⟨[6], some ⟨[6], [1, 2, 3, 4, 5, 6]⟩, [2, 3], none, none⟩ =
      (reshape_value_infer ⟨[6], some ⟨[6], [1, 2, 3, 4, 5, 6]⟩, [2, 3], some [2, 3], none⟩).map
        (fun v => ⟨[6], some ⟨[6], [1, 2, 3, 4, 5, 6]⟩, [2, 3], some [2, 3], v⟩) :=
  ⟨(C9_shape_written_before_value ⟨[6], some ⟨[6], [1, 2, 3, 4, 5, 6]⟩, [2, 3], none, none⟩).1
     ⟨[6], [1, 2, 3, 4, 5, 6]⟩ rfl rfl,
   (C9_shape_written_before_value ⟨[6], some ⟨[6], [1, 2, 3, 4, 5, 6]⟩, [2, 3], none, none⟩).2
     [2, 3] (by simp [tf_reshape_shape_infer, resolveDims])⟩

/-- C10: an input whose concrete value is a known zero-element array is
treated as known, not unknown: `infer` records a known empty output
value of the resolved shape, keeping the unknown marker and the known
empty array distinguishable. -/
theorem C10_empty_array_is_known (node : Node) (a : NDArray) (s : List Nat)
    (hv : node.in_value = some a)
    (hd : a.data = [])
    (hs : tf_reshape_shape_infer node = Except.ok s)
    (hp : s.prod = 0) :
    reshape_infer node =
      Except.ok { node with out_shape := some s, out_value := some ⟨s, []⟩ } := by
  have hc : a.data.length = s.prod := by rw [hd, hp]; rfl
  have h := reshape_infer_known node a s hv hs hc
  rw [hd] at h
  exact h

/-- C10 witness: a known empty array of shape `[0,3]` reshaped with
target `[0,3]` yields a known empty output value, not the unknown
marker. -/
theorem C10_empty_array_is_known_witness :
    reshape_infer ⟨[0, 3], some ⟨[0, 3], []⟩, [0, 3], none, none⟩ =
      Except.ok ⟨[0, 3], some ⟨[0, 3], []⟩, [0, 3], some [0, 3], some ⟨[0, 3], []⟩⟩ :=
  C10_empty_array_is_known ⟨[0, 3], some ⟨[0, 3], []⟩, [0, 3], none, none⟩
    ⟨[0, 3], []⟩ [0, 3] rfl rfl rfl (by decide)
